import Mathlib

/-!
Verification of the LinkedIn post generator (`app.py`).

This file gives a shallow embedding of the parts of `app.py` with logic:
the pillar rotation scheduler `get_todays_pillar`, the trend fetcher
`fetch_detailed_trends`, the session context-loading block, the
generation button handler, and the content generator `generate_post`.

External effects are modelled explicitly:
  * the state file `pillar_state.json` is a `FileState` value
    (absent / unreadable / syntactically invalid JSON / parsed JSON);
  * a call of `get_todays_pillar` returns the write it performs (if any)
    together with its Python outcome (a pillar, or an uncaught exception);
  * the search and language-model backends are parameters holding their
    outcome for one call.
-/

namespace App

/-- Values of Python data parsed from JSON by `json.load` (the shapes a
state file can hold): `null`, strings, integers, lists, dicts.  A dict is
an association list with the keys already deduplicated, as `json.load`
produces. -/
inductive Json where
  | null : Json
  | str (s : String) : Json
  | int (n : Int) : Json
  | arr (xs : List Json) : Json
  | obj (kvs : List (String × Json)) : Json

/-- Condition of the state file `pillar_state.json` on disk. -/
inductive FileState where
  | absent : FileState
  | unreadable : FileState
  | notJson (raw : String) : FileState
  | parsed (v : Json) : FileState

/-- Uncaught Python exceptions the scheduler can raise. -/
inductive PyErr where
  | osError : PyErr
  | attributeError : PyErr
  | typeError : PyErr
  | indexError : PyErr
deriving DecidableEq

/-- A content pillar: `{"name": ..., "desc": ...}` from `app.py`. -/
structure Pillar where
  name : String
  desc : String
deriving DecidableEq

/-- The static pillar catalog `PILLARS` of `app.py` (4 entries, indexed 0..3). -/
def PILLARS : List Pillar :=
  [ { name := "Technical Deep Dive",
      desc := "How I built something technical. Focus on architecture, code, or specific implementation details." },
    { name := "Business ROI",
      desc := "How AI saves time or money. Focus on metrics, efficiency, and business value." },
    { name := "AI Trend + My Take",
      desc := "Latest AI news/trend with my personal professional opinion." },
    { name := "Project Build Log",
      desc := "Update on what I am currently building (Alumniare, RAG Chatbot, or Voice Agent). Challenges faced, wins, progress." } ]

/-- Default state dict built at the top of `get_todays_pillar`:
`{"last_date": None, "current_pillar_index": -1}`. -/
def defaultState : Json :=
  .obj [("last_date", .null), ("current_pillar_index", .int (-1))]

/-- Reading the state file: absent or syntactically invalid JSON leaves the
default in place (`os.path.exists` guard resp. the `except
json.JSONDecodeError: pass` handler); an unreadable file raises an uncaught
`OSError` from `open`; otherwise the parsed value replaces the default. -/
def loadState : FileState → Except PyErr Json
  | .absent => .ok defaultState
  | .notJson _ => .ok defaultState
  | .unreadable => .error .osError
  | .parsed v => .ok v

/-- Lookup of a key in a parsed dict (first match; keys are unique). -/
def lookupKV (kvs : List (String × Json)) (k : String) : Option Json :=
  (kvs.find? (fun p => p.1 == k)).map (fun p => p.2)

/-- Python dict assignment `d[k] = v`: replace the value of an existing key
in place (keys are unique), else append the new pair. -/
def setKV (kvs : List (String × Json)) (k : String) (v : Json) : List (String × Json) :=
  match kvs with
  | [] => [(k, v)]
  | p :: r => if p.1 == k then (k, v) :: r else p :: setKV r k v

/-- `state[k] = v` on a Json value; only ever applied to dicts. -/
def objSet (v : Json) (k : String) (x : Json) : Json :=
  match v with
  | .obj kvs => .obj (setKV kvs k x)
  | other => other

/-- Python `state.get(k, dflt)`: raises `AttributeError` when `state` is not
a dict; returns the stored value, or `dflt` when the key is missing
(`state.get(k)` is the case `dflt = .null`, i.e. `None`). -/
def pyDictGet (v : Json) (k : String) (dflt : Json) : Except PyErr Json :=
  match v with
  | .obj kvs => .ok ((lookupKV kvs k).getD dflt)
  | _ => .error .attributeError

/-- Python equality `v == t` between a loaded JSON value and a `str`:
true exactly for an equal string. -/
def pyEqStr (v : Json) (t : String) : Bool :=
  match v with
  | .str s => s == t
  | _ => false

/-- Python list indexing `xs[i]` with an `int` index: negative indices count
from the end; out of range raises `IndexError`. -/
def pyListIndex (xs : List Pillar) (i : Int) : Except PyErr Pillar :=
  let j : Int := if i < 0 then i + (xs.length : Int) else i
  if 0 ≤ j then
    match xs[j.toNat]? with
    | some x => .ok x
    | none => .error .indexError
  else .error .indexError

/-- The scheduler `get_todays_pillar` of `app.py`, on a given file condition
and today's ISO date string.  Returns the write it performs to the state
file (if any) together with its outcome: the pillar returned, or the
uncaught exception raised.  Mirrors the source line by line: load with the
fail-open default, `state.get("last_date")`,
`state.get("current_pillar_index", -1)`, rotate-and-write on a date
mismatch (`new_index = (current_index + 1) % 4`, write `last_date` and
`current_pillar_index` into the loaded dict, then index `PILLARS`), else
index `PILLARS` with the stored index.  A non-`int` index raises
`TypeError` in either branch (`+` resp. list indexing). -/
def get_todays_pillar (fs : FileState) (today_str : String) :
    Option Json × Except PyErr Pillar :=
  match loadState fs with
  | .error e => (none, .error e)
  | .ok state =>
    match pyDictGet state "last_date" .null with
    | .error e => (none, .error e)
    | .ok last_date =>
      match pyDictGet state "current_pillar_index" (.int (-1)) with
      | .error e => (none, .error e)
      | .ok current_index =>
        if pyEqStr last_date today_str then
          match current_index with
          | .int n => (none, pyListIndex PILLARS n)
          | _ => (none, .error .typeError)
        else
          match current_index with
          | .int n =>
            let new_index : Int := (n + 1) % 4
            let state1 := objSet (objSet state "last_date" (.str today_str))
              "current_pillar_index" (.int new_index)
            (some state1, pyListIndex PILLARS new_index)
          | _ => (none, .error .typeError)

/-- A well-shaped state file content `{"last_date": d, "current_pillar_index": n}`. -/
def rotJson (d : String) (n : Int) : Json :=
  .obj [("last_date", .str d), ("current_pillar_index", .int n)]

/-- One call of `get_todays_pillar` seen from the file system: the file
after the call (updated when a write happened) and the call's outcome. -/
def runCall (fs : FileState) (d : String) : FileState × Except PyErr Pillar :=
  let r := get_todays_pillar fs d
  (match r.1 with
   | some w => .parsed w
   | none => fs, r.2)

/-- File contents after a sequence of calls, one per element (each element
is the date the call runs on). -/
def runCalls : FileState → List String → FileState
  | fs, [] => fs
  | fs, d :: r => runCalls (runCall fs d).1 r

/-- The `current_pillar_index` currently stored in the file, when the file
holds a dict with an integer at that key. -/
def stateIdx : FileState → Option Int
  | .parsed (.obj kvs) =>
    match lookupKV kvs "current_pillar_index" with
    | some (.int n) => some n
    | _ => none
  | _ => none

/-- Number of day changes along a call sequence whose previous call ran on
day `d`: one for every adjacent pair of different dates. -/
def rotations (d : String) : List String → Nat
  | [] => 0
  | x :: r => (if x = d then 0 else 1) + rotations x r

/-- Last date of a call sequence, `d` when the sequence is empty. -/
def lastDay (d : String) : List String → String
  | [] => d
  | x :: r => lastDay x r

/-- Number of distinct day blocks of a nonempty call sequence. -/
def dayCount : List String → Nat
  | [] => 0
  | x :: r => 1 + rotations x r

/-- Whether each call's date is no earlier than the previous call's date
(equal, or lexicographically later — the ISO date order). -/
def datesAdvance : List String → Bool
  | [] => true
  | [_] => true
  | a :: b :: r => (a == b || decide (a.data < b.data)) && datesAdvance (b :: r)

example : get_todays_pillar .absent "2026-01-01" =
    (some (rotJson "2026-01-01" 0), .ok (PILLARS.getD 0 ⟨"", ""⟩)) := rfl

example : get_todays_pillar (.parsed (rotJson "2026-01-01" 3)) "2026-01-02" =
    (some (rotJson "2026-01-02" 0), .ok (PILLARS.getD 0 ⟨"", ""⟩)) := rfl

example : get_todays_pillar (.parsed (rotJson "2026-01-01" 0)) "2026-01-01" =
    (none, .ok (PILLARS.getD 0 ⟨"", ""⟩)) := rfl

example : get_todays_pillar (.parsed (rotJson "2026-01-01" (-1))) "2026-01-01" =
    (none, .ok (PILLARS.getD 3 ⟨"", ""⟩)) := rfl

example : get_todays_pillar (.parsed (.arr [])) "2026-01-01" =
    (none, .error .attributeError) := rfl

example : datesAdvance ["2026-01-01", "2026-01-01", "2026-01-02"] = true := by decide

/-! ## Trend fetcher, session state, generator (source lines 157–173, 264–274, 333–380) -/

/-- A search hit consumed from the search backend: `{title, content, url}`. -/
structure Trend where
  title : String
  content : String
  url : String
deriving DecidableEq

/-- The trend fetcher `fetch_detailed_trends` of `app.py`.  The backend's
behaviour for the two sequential `tavily.search` calls is passed in: each
is either the `results` list of the response or a raised exception
(`.error`, covering network/auth/quota failures; a failure of client
construction is the first call failing).  The body mirrors the source:
take `results[0]` of each response when the list is nonempty else `None`;
any exception is caught by the one `except` handler, which shows a
non-fatal message (the returned flag) and yields `(None, None)`. -/
def fetch_detailed_trends (newsCall linkedinCall : Except String (List Trend)) :
    (Option Trend × Option Trend) × Bool :=
  match newsCall with
  | .error _ => ((none, none), true)
  | .ok newsResults =>
    let news_result := newsResults.head?
    match linkedinCall with
    | .error _ => ((none, none), true)
    | .ok linkedinResults => ((news_result, linkedinResults.head?), false)

/-- One slide of the carousel script, per the output schema the prompt
demands (`slide_number`, `emoji`, `headline`, `bullet_points`). -/
structure Slide where
  slide_number : Int
  emoji : String
  headline : String
  bullet_points : List String
deriving DecidableEq

/-- The parsed five-key JSON object a successful generation yields
(`headline`, `linkedin_post`, `image_prompt`, `carousel_script`,
`claude_prompt`).  No validation beyond JSON parsing is performed, so every
field holds whatever the model returned. -/
structure GenResult where
  headline : String
  linkedin_post : String
  image_prompt : String
  carousel_script : List Slide
  claude_prompt : String
deriving DecidableEq

/-- Per-session state (`st.session_state` after the initialisation block):
the cached context string, the two stored sources, and the last stored
generation result. -/
structure Session where
  context_data : String
  sources_news : Option Trend
  sources_linkedin : Option Trend
  generation_result : Option GenResult
deriving DecidableEq

/-- Session state right after initialisation: empty context, no sources, no
stored result. -/
def initialSession : Session :=
  { context_data := "", sources_news := none, sources_linkedin := none,
    generation_result := none }

/-- Context line built from the news hit:
`f"Global News: {news['title']} ({news['content']})\n"`. -/
def newsLine (t : Trend) : String :=
  "Global News: " ++ t.title ++ " (" ++ t.content ++ ")\n"

/-- Context line built from the LinkedIn hit:
`f"LinkedIn Discussion: {linkedin['title']} ({linkedin['content']})\n"`. -/
def linkedinLine (t : Trend) : String :=
  "LinkedIn Discussion: " ++ t.title ++ " (" ++ t.content ++ ")\n"

/-- The context string assembled from a fetch outcome (source lines 347–353). -/
def contextString (news linkedin : Option Trend) : String :=
  (match news with
   | some t => newsLine t
   | none => "") ++
  (match linkedin with
   | some t => linkedinLine t
   | none => "")

/-- The context-loading block (source lines 342–360), run once per script
rerun.  It runs only when the active pillar is "AI Trend + My Take" and the
cached `context_data` is falsy (the empty string); then it performs the
fetch (whose outcome `fetched` is fixed for the session), stores each
present source, and stores the assembled context string.  Returns the
updated session and the number of backend fetches performed (0 or 1). -/
def context_loading_block (pillarName : String)
    (fetched : Option Trend × Option Trend) (s : Session) : Session × Nat :=
  if pillarName = "AI Trend + My Take" then
    if s.context_data = "" then
      let news := fetched.1
      let linkedin := fetched.2
      let ctx := contextString news linkedin
      ({ s with
          context_data := ctx,
          sources_news := (match news with
            | some t => some t
            | none => s.sources_news),
          sources_linkedin := (match linkedin with
            | some t => some t
            | none => s.sources_linkedin) }, 1)
    else (s, 0)
  else (s, 0)

/-- A number of successive script reruns within one session (every user
interaction reruns the script, hence the block).  Returns the final session
and the total number of backend fetches performed. -/
def run_reruns (pillarName : String) (fetched : Option Trend × Option Trend) :
    Nat → Session → Session × Nat
  | 0, s => (s, 0)
  | n + 1, s =>
    let r := context_loading_block pillarName fetched s
    let rest := run_reruns pillarName fetched n r.1
    (rest.1, r.2 + rest.2)

/-- The generic fallback context of the button handler (source line 379). -/
def fallbackContext : String :=
  "Pick a relevant topic from my Projects list or general AI engineering expertise."

/-- `st.session_state.context_data if st.session_state.context_data else
"Pick a relevant topic..."`: the context passed to generation, falling back
when the cached context string is falsy (empty). -/
def final_context (context_data : String) : String :=
  if context_data = "" then fallbackContext else context_data

/-- The generator `generate_post` (source lines 264–274), with the outcome
of `chain.invoke` — the parsed JSON result, or a raised exception (backend
error or the JSON parser failing on a malformed response) — passed in.  The
`try` returns the result; the `except` handler shows a non-fatal error
message (the returned flag) and returns `None`. -/
def generate_post (invokeOutcome : Except String GenResult) :
    Option GenResult × Bool :=
  match invokeOutcome with
  | .ok r => (some r, false)
  | .error _ => (none, true)

/-- The generation button handler (source lines 376–380): computes the
final context and assigns `st.session_state.generation_result =
generate_post(...)`, overwriting whatever was stored.  Returns the updated
session and whether a non-fatal error message was shown. -/
def generation_button (invokeOutcome : Except String GenResult) (s : Session) :
    Session × Bool :=
  let r := generate_post invokeOutcome
  ({ s with generation_result := r.1 }, r.2)

/-- Opening part of the fixed format template for the `claude_prompt`
artifact embedded in the generation prompt of `generate_post` (source
lines 216–251), up to the slide-1 tag. -/
def claudeTplHead : String :=
  "        **ADDITIONAL REQUIREMENT 3: CLAUDE AI PROMPT**:
        Generate ONE section called \"claude_prompt\" which contains the entire carousel script formatted exactly as a prompt for Claude AI.

        Format it EXACTLY like this:
        ---
        Make me a LinkedIn carousel PDF with this script:

        TOPIC: [the topic]
        BRAND: Digvijay Chaudhari — AI Systems Engineer & Consultant
        BRAND COLORS: Navy #0F172A, Blue #3B82F6, Purple #8B5CF6, Green #10B981, White #F8FAFC
        FONT STYLE: Modern, minimal, tech professional

        "

/-- The slide-1 tag of the template. -/
def claudeCoverTag : String := "SLIDE 1 — COVER:"

/-- Middle part of the template, between the slide-1 tag and the slide-10
tag. -/
def claudeTplMid : String :=
  "
        Headline: [headline]
        Subtext: [subtext]

        SLIDE 2:
        Headline: [headline]
        • [point 1]
        • [point 2]
        • [point 3]

        SLIDE 3:
        Headline: [headline]
        • [point 1]
        • [point 2]
        • [point 3]

        [... slides 4-9 same format ...]

        "

/-- The slide-10 tag of the template. -/
def claudeCtaTag : String := "SLIDE 10 — CTA:"

/-- Closing part of the template, after the slide-10 tag. -/
def claudeTplTail : String :=
  "
        Headline: Found this useful?
        • Follow Digvijay Chaudhari for daily AI builds
        • DM \"BUILD\" for AI consulting
        • Like + Repost to help other builders
        ---"

/-- The full fixed format template for the `claude_prompt` artifact
(source lines 216–251).  This text is an instruction to the language
model; no code of the program builds or checks `claude_prompt` against
it. -/
def claudePromptFormatInstructions : String :=
  claudeTplHead ++ (claudeCoverTag ++ (claudeTplMid ++ (claudeCtaTag ++ claudeTplTail)))

/-- `pat` occurs as a substring of `s`. -/
def SubStr (pat s : String) : Prop :=
  ∃ a b : String, s = a ++ (pat ++ b)

/-- Number of (possibly overlapping) occurrences of `pat` in `s`. -/
def countOcc (pat : List Char) (s : List Char) : Nat :=
  match s with
  | [] => 0
  | c :: rest => (if pat <+: (c :: rest) then 1 else 0) + countOcc pat rest

/-- Number of slide blocks of a rendered claude prompt: occurrences of the
block leader "SLIDE ". -/
def slideBlockCount (s : String) : Nat :=
  countOcc ("SLIDE ").data s.data

/-- The round-trip property claim C8 asserts of a generation result with a
10-slide carousel: ten slide blocks in `claude_prompt`, slide 1 tagged
COVER, slide 10 tagged CTA. -/
def claudePromptWellFormed (r : GenResult) : Prop :=
  slideBlockCount r.claude_prompt = 10 ∧
  SubStr "SLIDE 1 — COVER:" r.claude_prompt ∧
  SubStr "SLIDE 10 — CTA:" r.claude_prompt

/-! ## Helper lemmas on dict operations -/

theorem lookupKV_setKV_self (kvs : List (String × Json)) (k : String) (v : Json) :
    lookupKV (setKV kvs k v) k = some v := by
  induction kvs with
  | nil => simp [setKV, lookupKV, List.find?]
  | cons p r ih =>
    by_cases hp : (p.1 == k) = true
    · simp [setKV, hp, lookupKV, List.find?]
    · simp only [Bool.not_eq_true] at hp
      simp only [setKV, hp, Bool.false_eq_true, if_false]
      simpa [lookupKV, List.find?, hp] using ih

theorem lookupKV_setKV_ne (kvs : List (String × Json)) (k k' : String) (v : Json)
    (hne : k' ≠ k) :
    lookupKV (setKV kvs k v) k' = lookupKV kvs k' := by
  have hkk : (k == k') = false := by
    cases h : k == k'
    · rfl
    · exact absurd (eq_of_beq h).symm hne
  induction kvs with
  | nil => simp [setKV, lookupKV, List.find?, hkk]
  | cons p r ih =>
    by_cases hp : (p.1 == k) = true
    · have hpk : p.1 = k := eq_of_beq hp
      have hp' : (p.1 == k') = false := by rw [hpk]; exact hkk
      simp [setKV, hp, lookupKV, List.find?, hkk, hp']
    · simp only [Bool.not_eq_true] at hp
      simp only [setKV, hp, Bool.false_eq_true, if_false]
      by_cases hq : (p.1 == k') = true
      · simp [lookupKV, List.find?, hq]
      · simp only [Bool.not_eq_true] at hq
        simpa [lookupKV, List.find?, hq] using ih

/-! ## Scheduler branch lemmas -/

theorem pyListIndex_inRange (n : Int) (h0 : 0 ≤ n) (h4 : n < 4) :
    pyListIndex PILLARS n = .ok (PILLARS.getD n.toNat ⟨"", ""⟩) := by
  have : n = 0 ∨ n = 1 ∨ n = 2 ∨ n = 3 := by omega
  rcases this with h | h | h | h <;> subst h <;> rfl

theorem pyListIndex_negRange (n : Int) (h0 : -4 ≤ n) (h1 : n ≤ -1) :
    pyListIndex PILLARS n = .ok (PILLARS.getD (n + 4).toNat ⟨"", ""⟩) := by
  have : n = -4 ∨ n = -3 ∨ n = -2 ∨ n = -1 := by omega
  rcases this with h | h | h | h <;> subst h <;> rfl

theorem pyListIndex_outOfRange (n : Int) (h : n < -4 ∨ 3 < n) :
    pyListIndex PILLARS n = .error .indexError := by
  have hlen : PILLARS.length = 4 := rfl
  simp only [pyListIndex, hlen]
  rcases h with h | h
  · have h1 : n < 0 := by omega
    simp only [h1, if_true, ite_eq_right_iff]
    intro hc
    exfalso
    omega
  · have h1 : ¬ n < 0 := by omega
    have h2 : (0 : Int) ≤ n := by omega
    have h3 : PILLARS.length ≤ n.toNat := by omega
    simp [h1, h2, List.getElem?_eq_none h3]

theorem get_todays_pillar_rotJson_sameDay (d : String) (n : Int) :
    get_todays_pillar (.parsed (rotJson d n)) d = (none, pyListIndex PILLARS n) := by
  simp [get_todays_pillar, loadState, pyDictGet, lookupKV, rotJson, pyEqStr]

theorem get_todays_pillar_rotJson_newDay (d d' : String) (n : Int) (h : d ≠ d') :
    get_todays_pillar (.parsed (rotJson d n)) d' =
      (some (rotJson d' ((n + 1) % 4)), pyListIndex PILLARS ((n + 1) % 4)) := by
  have hb : (d == d') = false := by
    cases hdd : d == d'
    · rfl
    · exact absurd (eq_of_beq hdd) h
  simp [get_todays_pillar, loadState, pyDictGet, lookupKV, rotJson, pyEqStr, hb,
    objSet, setKV]

theorem get_todays_pillar_default (t : String) :
    get_todays_pillar (.parsed defaultState) t =
      (some (rotJson t 0), pyListIndex PILLARS 0) := by
  have : ((-1 : Int) + 1) % 4 = 0 := by decide
  simp [get_todays_pillar, loadState, pyDictGet, lookupKV, defaultState, pyEqStr,
    objSet, setKV, rotJson, this]

theorem get_todays_pillar_absent (t : String) :
    get_todays_pillar .absent t = get_todays_pillar (.parsed defaultState) t := rfl

theorem get_todays_pillar_notJson (r t : String) :
    get_todays_pillar (.notJson r) t = get_todays_pillar (.parsed defaultState) t := rfl

/-! ## Call-sequence lemmas -/

theorem runCall_rotJson_sameDay (d : String) (n : Int) :
    (runCall (.parsed (rotJson d n)) d).1 = .parsed (rotJson d n) := by
  simp [runCall, get_todays_pillar_rotJson_sameDay]

theorem runCall_rotJson_newDay (d d' : String) (n : Int) (h : d ≠ d') :
    (runCall (.parsed (rotJson d n)) d').1 = .parsed (rotJson d' ((n + 1) % 4)) := by
  simp [runCall, get_todays_pillar_rotJson_newDay d d' n h]

theorem runCall_absent (d : String) :
    (runCall .absent d).1 = .parsed (rotJson d 0) := by
  simp [runCall, get_todays_pillar_absent, get_todays_pillar_default]

theorem stateIdx_rotJson (d : String) (n : Int) :
    stateIdx (.parsed (rotJson d n)) = some n := rfl

theorem runCalls_rotJson (ds : List String) : ∀ (d : String) (n : Int),
    0 ≤ n → n < 4 →
    runCalls (.parsed (rotJson d n)) ds =
      .parsed (rotJson (lastDay d ds) ((n + (rotations d ds : Int)) % 4)) := by
  induction ds with
  | nil =>
    intro d n h0 h4
    have heq : (n + ((rotations d [] : Nat) : Int)) % 4 = n := by
      simp only [rotations]
      omega
    rw [heq]
    rfl
  | cons x r ih =>
    intro d n h0 h4
    by_cases hxd : x = d
    · subst hxd
      show runCalls (runCall (.parsed (rotJson x n)) x).1 r = _
      rw [runCall_rotJson_sameDay]
      rw [ih x n h0 h4]
      have heq : rotations x (x :: r) = rotations x r := by simp [rotations]
      rw [show lastDay x (x :: r) = lastDay x r from rfl, heq]
    · show runCalls (runCall (.parsed (rotJson d n)) x).1 r = _
      rw [runCall_rotJson_newDay d x n (fun hh => hxd hh.symm)]
      rw [ih x ((n + 1) % 4) (by omega) (by omega)]
      have hrot : rotations d (x :: r) = 1 + rotations x r := by
        simp [rotations, hxd]
      have heq : ((n + 1) % 4 + ((rotations x r : Nat) : Int)) % 4 =
          (n + ((rotations d (x :: r) : Nat) : Int)) % 4 := by
        rw [hrot]
        push_cast
        omega
      rw [show lastDay d (x :: r) = lastDay x r from rfl, heq]

/-- C3: starting from the default state, along a sequence of calls whose
dates advance, the persisted `current_pillar_index` after any nonempty
number of calls is the number of distinct days seen so far minus one,
modulo 4 — i.e. it cycles 0,1,2,3,0,… advancing exactly at day boundaries
and never within a day. -/
theorem pillar_index_cycles (ds : List String) (hadv : datesAdvance ds = true)
    (k : Nat) (hk1 : 0 < k) (hk2 : k ≤ ds.length) :
    stateIdx (runCalls .absent (ds.take k)) =
      some ((((dayCount (ds.take k) : Nat) : Int) - 1) % 4) := by
  have hne : ds.take k ≠ [] := by
    intro hnil
    have hlen : (ds.take k).length = 0 := by rw [hnil]; rfl
    rw [List.length_take] at hlen
    omega
  cases htk : ds.take k with
  | nil => exact absurd htk hne
  | cons d0 rest =>
    show stateIdx (runCalls (runCall .absent d0).1 rest) = _
    rw [runCall_absent]
    rw [runCalls_rotJson rest d0 0 (by omega) (by omega)]
    rw [stateIdx_rotJson]
    have hdc : dayCount (d0 :: rest) = 1 + rotations d0 rest := rfl
    rw [hdc]
    congr 1
    push_cast
    omega

/-- C3 witness: three calls over two distinct days, starting from an absent
state file, leave index 1 stored. -/
theorem pillar_index_cycles_witness :
    datesAdvance ["2026-01-01", "2026-01-01", "2026-01-02"] = true ∧
    0 < 3 ∧ 3 ≤ (["2026-01-01", "2026-01-01", "2026-01-02"] : List String).length ∧
    stateIdx (runCalls .absent ((["2026-01-01", "2026-01-01", "2026-01-02"] : List String).take 3)) =
      some ((((dayCount ((["2026-01-01", "2026-01-01", "2026-01-02"] : List String).take 3) : Nat) : Int) - 1) % 4) :=
  ⟨by decide, by decide, by decide,
    pillar_index_cycles ["2026-01-01", "2026-01-01", "2026-01-02"] (by decide) 3
      (by decide) (by decide)⟩

/-- Complete case analysis of one scheduler call: either it raises (no
write), or the loaded state is a dict with an integer index `n` and the
call either hits the same-day branch (no write, indexes `PILLARS` with `n`)
or the rotation branch (writes the updated dict, indexes `PILLARS` with
`(n + 1) % 4`). -/
theorem get_todays_pillar_cases (fs : FileState) (d : String) :
    (∃ e, get_todays_pillar fs d = (none, .error e)) ∨
    (∃ kvs n, loadState fs = .ok (.obj kvs) ∧
      (lookupKV kvs "current_pillar_index").getD (.int (-1)) = .int n ∧
      ((pyEqStr ((lookupKV kvs "last_date").getD .null) d = true ∧
        get_todays_pillar fs d = (none, pyListIndex PILLARS n)) ∨
       (pyEqStr ((lookupKV kvs "last_date").getD .null) d = false ∧
        get_todays_pillar fs d =
          (some (.obj (setKV (setKV kvs "last_date" (.str d))
              "current_pillar_index" (.int ((n + 1) % 4)))),
           pyListIndex PILLARS ((n + 1) % 4))))) := by
  cases hl : loadState fs with
  | error e => exact Or.inl ⟨e, by simp [get_todays_pillar, hl]⟩
  | ok state =>
    cases state with
    | null => exact Or.inl ⟨.attributeError, by simp [get_todays_pillar, hl, pyDictGet]⟩
    | str s => exact Or.inl ⟨.attributeError, by simp [get_todays_pillar, hl, pyDictGet]⟩
    | int n => exact Or.inl ⟨.attributeError, by simp [get_todays_pillar, hl, pyDictGet]⟩
    | arr xs => exact Or.inl ⟨.attributeError, by simp [get_todays_pillar, hl, pyDictGet]⟩
    | obj kvs =>
      by_cases hd : pyEqStr ((lookupKV kvs "last_date").getD .null) d
      · cases hci : (lookupKV kvs "current_pillar_index").getD (.int (-1)) with
        | int n =>
          exact Or.inr ⟨kvs, n, rfl, hci,
            Or.inl ⟨hd, by simp [get_todays_pillar, hl, pyDictGet, hci, hd]⟩⟩
        | null => exact Or.inl ⟨.typeError, by simp [get_todays_pillar, hl, pyDictGet, hci, hd]⟩
        | str s => exact Or.inl ⟨.typeError, by simp [get_todays_pillar, hl, pyDictGet, hci, hd]⟩
        | arr xs => exact Or.inl ⟨.typeError, by simp [get_todays_pillar, hl, pyDictGet, hci, hd]⟩
        | obj kvs2 => exact Or.inl ⟨.typeError, by simp [get_todays_pillar, hl, pyDictGet, hci, hd]⟩
      · rw [Bool.not_eq_true] at hd
        cases hci : (lookupKV kvs "current_pillar_index").getD (.int (-1)) with
        | int n =>
          exact Or.inr ⟨kvs, n, rfl, hci,
            Or.inr ⟨hd, by simp [get_todays_pillar, hl, pyDictGet, hci, hd, objSet]⟩⟩
        | null => exact Or.inl ⟨.typeError, by simp [get_todays_pillar, hl, pyDictGet, hci, hd]⟩
        | str s => exact Or.inl ⟨.typeError, by simp [get_todays_pillar, hl, pyDictGet, hci, hd]⟩
        | arr xs => exact Or.inl ⟨.typeError, by simp [get_todays_pillar, hl, pyDictGet, hci, hd]⟩
        | obj kvs2 => exact Or.inl ⟨.typeError, by simp [get_todays_pillar, hl, pyDictGet, hci, hd]⟩

/-- C4: on a stored two-field state whose `last_date` differs from today,
the scheduler computes `next_index = (current_pillar_index + 1) % 4`,
writes `{last_date: today, current_pillar_index: next_index}` as part of
the same call, and returns `PILLARS[next_index]`; from the initial index
`-1` this yields index 0, and from 3 it wraps to 0. -/
theorem rotation_on_new_day (ld : Json) (n : Int) (today : String)
    (h : pyEqStr ld today = false) :
    get_todays_pillar
        (.parsed (.obj [("last_date", ld), ("current_pillar_index", .int n)])) today =
      (some (rotJson today ((n + 1) % 4)),
       .ok (PILLARS.getD ((n + 1) % 4).toNat ⟨"", ""⟩)) := by
  have hr0 : 0 ≤ (n + 1) % 4 := by omega
  have hr4 : (n + 1) % 4 < 4 := by omega
  simp [get_todays_pillar, loadState, pyDictGet, lookupKV, List.find?, h, objSet,
    setKV, rotJson, pyListIndex_inRange _ hr0 hr4]

/-- C4 witness: the first-ever rotation (stored index -1, null date)
returns pillar index 0 and writes `{last_date: "2026-01-01",
current_pillar_index: 0}`. -/
theorem rotation_on_new_day_witness :
    pyEqStr .null "2026-01-01" = false ∧
    get_todays_pillar
        (.parsed (.obj [("last_date", Json.null), ("current_pillar_index", Json.int (-1))]))
        "2026-01-01" =
      (some (rotJson "2026-01-01" ((-1 + 1) % 4)),
       .ok (PILLARS.getD (((-1 : Int) + 1) % 4).toNat ⟨"", ""⟩)) :=
  ⟨rfl, rotation_on_new_day .null (-1) "2026-01-01" rfl⟩

/-- C5: the scheduler is idempotent within a day.  If a call on day `d`
succeeded, a further call on the same day returns the same pillar and
performs no write (the file is left exactly as it was). -/
theorem same_day_idempotent (fs : FileState) (d : String) (fs' : FileState) (p : Pillar)
    (h : runCall fs d = (fs', .ok p)) :
    runCall fs' d = (fs', .ok p) := by
  rcases get_todays_pillar_cases fs d with ⟨e, hg⟩ | ⟨kvs, n, hl, hci, hcase⟩
  · rw [runCall, hg] at h
    simp at h
  · rcases hcase with ⟨hd, hg⟩ | ⟨hd, hg⟩
    · rw [runCall, hg] at h
      simp only [Prod.mk.injEq] at h
      obtain ⟨hfs, hp⟩ := h
      subst hfs
      rw [runCall, hg, hp]
    · rw [runCall, hg] at h
      simp only [Prod.mk.injEq] at h
      obtain ⟨hfs, hp⟩ := h
      subst hfs
      have hld : lookupKV (setKV (setKV kvs "last_date" (.str d))
          "current_pillar_index" (.int ((n + 1) % 4))) "last_date" = some (.str d) := by
        rw [lookupKV_setKV_ne _ _ _ _ (by decide)]
        exact lookupKV_setKV_self _ _ _
      have hci2 : lookupKV (setKV (setKV kvs "last_date" (.str d))
          "current_pillar_index" (.int ((n + 1) % 4))) "current_pillar_index" =
          some (.int ((n + 1) % 4)) := lookupKV_setKV_self _ _ _
      simp [runCall, get_todays_pillar, loadState, pyDictGet, hld, hci2, pyEqStr, hp]

/-- C5 witness: after the first-ever call on 2026-01-01, a second call that
day returns the same pillar (index 0) and writes nothing. -/
theorem same_day_idempotent_witness :
    runCall .absent "2026-01-01" =
      (.parsed (rotJson "2026-01-01" 0), .ok (PILLARS.getD 0 ⟨"", ""⟩)) ∧
    runCall (.parsed (rotJson "2026-01-01" 0)) "2026-01-01" =
      (.parsed (rotJson "2026-01-01" 0), .ok (PILLARS.getD 0 ⟨"", ""⟩)) :=
  ⟨rfl, same_day_idempotent .absent "2026-01-01"
    (.parsed (rotJson "2026-01-01" 0)) (PILLARS.getD 0 ⟨"", ""⟩) rfl⟩

/-- C9: every write the scheduler performs stores
`current_pillar_index = (loaded_index + 1) % 4`, which lies in `[0, 3]`
whatever integer was loaded, together with `last_date` equal to today.
The rotation branch is the only write path of the function. -/
theorem scheduler_write_in_range (fs : FileState) (today : String) (w : Json)
    (r : Except PyErr Pillar) (h : get_todays_pillar fs today = (some w, r)) :
    ∃ kvs n, loadState fs = .ok (.obj kvs) ∧
      (lookupKV kvs "current_pillar_index").getD (.int (-1)) = .int n ∧
      pyDictGet w "last_date" .null = .ok (.str today) ∧
      pyDictGet w "current_pillar_index" (.int (-1)) = .ok (.int ((n + 1) % 4)) ∧
      0 ≤ (n + 1) % 4 ∧ (n + 1) % 4 ≤ 3 := by
  rcases get_todays_pillar_cases fs today with ⟨e, hg⟩ | ⟨kvs, n, hl, hci, hcase⟩
  · rw [hg] at h
    simp at h
  · rcases hcase with ⟨hd, hg⟩ | ⟨hd, hg⟩
    · rw [hg] at h
      simp at h
    · rw [hg] at h
      simp only [Prod.mk.injEq, Option.some.injEq] at h
      obtain ⟨hw, hr⟩ := h
      subst hw
      have hld : lookupKV (setKV (setKV kvs "last_date" (.str today))
          "current_pillar_index" (.int ((n + 1) % 4))) "last_date" = some (.str today) := by
        rw [lookupKV_setKV_ne _ _ _ _ (by decide)]
        exact lookupKV_setKV_self _ _ _
      have hci2 : lookupKV (setKV (setKV kvs "last_date" (.str today))
          "current_pillar_index" (.int ((n + 1) % 4))) "current_pillar_index" =
          some (.int ((n + 1) % 4)) := lookupKV_setKV_self _ _ _
      exact ⟨kvs, n, hl, hci, by simp [pyDictGet, hld], by simp [pyDictGet, hci2],
        by omega, by omega⟩

/-- C9 witness: the first-ever call on 2026-01-01 writes index
`(-1 + 1) % 4 = 0` and date 2026-01-01. -/
theorem scheduler_write_in_range_witness :
    ∃ kvs n, loadState .absent = .ok (.obj kvs) ∧
      (lookupKV kvs "current_pillar_index").getD (.int (-1)) = .int n ∧
      pyDictGet (rotJson "2026-01-01" 0) "last_date" .null = .ok (.str "2026-01-01") ∧
      pyDictGet (rotJson "2026-01-01" 0) "current_pillar_index" (.int (-1)) =
        .ok (.int ((n + 1) % 4)) ∧
      0 ≤ (n + 1) % 4 ∧ (n + 1) % 4 ≤ 3 :=
  scheduler_write_in_range .absent "2026-01-01" (rotJson "2026-01-01" 0)
    (.ok (PILLARS.getD 0 ⟨"", ""⟩)) rfl

/-- C10: with a same-day stored state, a stored integer index in `[-4, -1]`
does not fail — Python negative indexing returns the pillar at position
`index + 4` (so `-1` yields the last pillar, index 3); any same-day stored
index in `[-4, 3]` succeeds, and only an index outside `[-4, 3]` makes the
list indexing raise `IndexError`. -/
theorem same_day_negative_indexing (d : String) (n : Int) :
    (-4 ≤ n → n ≤ -1 →
      get_todays_pillar (.parsed (rotJson d n)) d =
        (none, .ok (PILLARS.getD (n + 4).toNat ⟨"", ""⟩))) ∧
    (-4 ≤ n → n ≤ 3 →
      ∃ p, get_todays_pillar (.parsed (rotJson d n)) d = (none, .ok p)) ∧
    ((n < -4 ∨ 3 < n) →
      get_todays_pillar (.parsed (rotJson d n)) d = (none, .error .indexError)) := by
  refine ⟨?_, ?_, ?_⟩
  · intro h1 h2
    rw [get_todays_pillar_rotJson_sameDay, pyListIndex_negRange n h1 h2]
  · intro h1 h2
    rw [get_todays_pillar_rotJson_sameDay]
    by_cases hn : 0 ≤ n
    · exact ⟨_, by rw [pyListIndex_inRange n hn (by omega)]⟩
    · exact ⟨_, by rw [pyListIndex_negRange n h1 (by omega)]⟩
  · intro h1
    rw [get_todays_pillar_rotJson_sameDay, pyListIndex_outOfRange n h1]

/-- C10 witness: a same-day state tampered to index -1 returns the last
pillar (catalog position 3) without failing. -/
theorem same_day_negative_indexing_witness :
    get_todays_pillar (.parsed (rotJson "2026-01-01" (-1))) "2026-01-01" =
      (none, .ok (PILLARS.getD ((-1 : Int) + 4).toNat ⟨"", ""⟩)) :=
  (same_day_negative_indexing "2026-01-01" (-1)).1 (by omega) (by omega)

/-- C2 counterexample: a readable state file holding valid JSON that is not
an object (here the empty list) makes `get_todays_pillar` raise an uncaught
`AttributeError` rather than fall back to the default state, and an
unreadable file raises an uncaught `OSError`; the default state itself
would have rotated to pillar 0 and written. -/
theorem state_corrupt_shape_raises_cex :
    get_todays_pillar (.parsed (.arr [])) "2026-01-01" = (none, .error .attributeError) ∧
    get_todays_pillar .unreadable "2026-01-01" = (none, .error .osError) ∧
    get_todays_pillar (.parsed defaultState) "2026-01-01" =
      (some (rotJson "2026-01-01" 0), .ok (PILLARS.getD 0 ⟨"", ""⟩)) :=
  ⟨rfl, rfl, rfl⟩

/-- C2 amended: an absent state file and a file whose content is not
parseable as JSON behave exactly as the default state
`{last_date: null, current_pillar_index: -1}` (the call succeeds, rotating
to pillar 0); but readable valid JSON of a non-object shape, or an
unreadable file, raises an uncaught error instead of being swallowed. -/
theorem state_load_fail_open (r t : String) :
    get_todays_pillar .absent t = get_todays_pillar (.parsed defaultState) t ∧
    get_todays_pillar (.notJson r) t = get_todays_pillar (.parsed defaultState) t ∧
    get_todays_pillar (.parsed defaultState) t =
      (some (rotJson t 0), .ok (PILLARS.getD 0 ⟨"", ""⟩)) := by
  refine ⟨rfl, rfl, ?_⟩
  rw [get_todays_pillar_default t, pyListIndex_inRange 0 (by omega) (by omega)]
  rfl

/-! ## Session, trend-fetch and generation claims -/

/-- A sample generation result used in concrete runs. -/
def sampleResult : GenResult :=
  { headline := "RAG at 98 percent", linkedin_post := "post body",
    image_prompt := "clean tech visual", carousel_script := [],
    claude_prompt := "script" }

/-- A session that already holds a stored generation result. -/
def storedSession : Session :=
  { context_data := "", sources_news := none, sources_linkedin := none,
    generation_result := some sampleResult }

/-- C1 counterexample: when the generation call fails, the button handler
assigns `generate_post`'s `None` over the stored result — the previously
stored result is cleared, not left untouched. -/
theorem generation_failure_overwrites_cex :
    storedSession.generation_result = some sampleResult ∧
    (generation_button (.error "OutputParserException: invalid json") storedSession).1.generation_result
      = none ∧
    (none : Option GenResult) ≠ some sampleResult :=
  ⟨rfl, rfl, fun h => Option.noConfusion h⟩

/-- C1 amended: a failed generation call is surfaced as a non-fatal error
(the handler returns normally with the error flag), the stored generation
result is overwritten with `None` (so the prior result is no longer
displayed), the rest of the session is untouched, and a retry that
succeeds stores its fresh result. -/
theorem generation_failure_clears_result (e : String) (s : Session) (r : GenResult) :
    generation_button (.error e) s = ({ s with generation_result := none }, true) ∧
    generation_button (.ok r) s = ({ s with generation_result := some r }, false) :=
  ⟨rfl, rfl⟩

/-- When a nonempty context string is already cached, the loading block
does nothing and performs no fetch. -/
theorem context_block_cached (pn : String) (f : Option Trend × Option Trend)
    (s : Session) (h : s.context_data ≠ "") :
    context_loading_block pn f s = (s, 0) := by
  unfold context_loading_block
  by_cases hp : pn = "AI Trend + My Take"
  · simp [hp, h]
  · simp [hp]

/-- With a nonempty cached context, any number of further reruns leaves the
session unchanged and performs no fetch. -/
theorem run_reruns_cached (pn : String) (f : Option Trend × Option Trend)
    (n : Nat) (s : Session) (h : s.context_data ≠ "") :
    run_reruns pn f n s = (s, 0) := by
  induction n with
  | zero => rfl
  | succ m ih => simp [run_reruns, context_block_cached pn f s h, ih]

/-- A fetch outcome with at least one hit yields a nonempty context string. -/
theorem contextString_ne_empty (news li : Option Trend)
    (h : news ≠ none ∨ li ≠ none) : contextString news li ≠ "" := by
  intro hempty
  have hlen := congrArg String.length hempty
  rcases news with _ | t
  · rcases li with _ | t
    · rcases h with h | h <;> exact h rfl
    · rw [show String.length "" = 0 from rfl] at hlen
      simp only [contextString, linkedinLine, String.length_append] at hlen
      rw [show String.length "LinkedIn Discussion: " = 21 from rfl] at hlen
      omega
  · rw [show String.length "" = 0 from rfl] at hlen
    simp only [contextString, newsLine, String.length_append] at hlen
    rw [show String.length "Global News: " = 13 from rfl] at hlen
    omega

/-- C6 amended: the fetch outcome is cached and reused only when it is
non-empty.  If at least one of the two queries returned a hit, the whole
session performs exactly one backend fetch however many reruns follow; an
empty outcome leaves the cache falsy, so the block fetches again on every
rerun (see the counterexample). -/
theorem fetch_cached_when_nonempty (news li : Option Trend) (n : Nat)
    (hne : news ≠ none ∨ li ≠ none) (hn : 1 ≤ n) :
    (run_reruns "AI Trend + My Take" (news, li) n initialSession).2 = 1 := by
  obtain ⟨m, rfl⟩ : ∃ m, n = m + 1 := ⟨n - 1, by omega⟩
  have hctx := contextString_ne_empty news li hne
  have h1 : (context_loading_block "AI Trend + My Take" (news, li) initialSession).1.context_data
      = contextString news li := by
    simp [context_loading_block, initialSession]
  have h2 : (context_loading_block "AI Trend + My Take" (news, li) initialSession).2 = 1 := by
    simp [context_loading_block, initialSession]
  simp only [run_reruns]
  rw [run_reruns_cached "AI Trend + My Take" (news, li) m _ (by rw [h1]; exact hctx), h2]
  simp

/-- C6 witness: with one news hit cached, two reruns fetch exactly once. -/
theorem fetch_cached_when_nonempty_witness :
    ((some { title := "AI", content := "news", url := "u" } : Option Trend) ≠ none ∨
      (none : Option Trend) ≠ none) ∧ 1 ≤ 2 ∧
    (run_reruns "AI Trend + My Take"
      (some { title := "AI", content := "news", url := "u" }, none) 2 initialSession).2 = 1 :=
  ⟨Or.inl (fun h => Option.noConfusion h), by omega,
    fetch_cached_when_nonempty (some { title := "AI", content := "news", url := "u" })
      none 2 (Or.inl (fun h => Option.noConfusion h)) (by omega)⟩

/-- C6 counterexample: when both queries fail or return no results, the
cached context is the empty string, which is falsy, so the next rerun
fetches again — two reruns make two backend fetches, contradicting "the
fetch is performed at most once per run even for an empty outcome". -/
theorem empty_fetch_refetches_cex :
    (run_reruns "AI Trend + My Take" (none, none) 2 initialSession).2 = 2 ∧
    ¬ ((run_reruns "AI Trend + My Take" (none, none) 2 initialSession).2 ≤ 1) := by
  constructor <;> decide

/-- C7: `fetch_detailed_trends` returns the top hit of each of its two
queries (`None` for a query with zero results); a failure of either backend
call is caught and surfaced only as a non-fatal message, yielding
`(None, None)`; and with no trends the generation proceeds from the
generic fallback context string (the function is total — it never
raises). -/
theorem fetch_trends_degrades_gracefully :
    (∀ newsResults linkedinResults : List Trend,
      fetch_detailed_trends (.ok newsResults) (.ok linkedinResults) =
        ((newsResults.head?, linkedinResults.head?), false)) ∧
    (∀ (e : String) (c : Except String (List Trend)),
      fetch_detailed_trends (.error e) c = ((none, none), true)) ∧
    (∀ (res : List Trend) (e : String),
      fetch_detailed_trends (.ok res) (.error e) = ((none, none), true)) ∧
    contextString none none = "" ∧
    final_context "" = fallbackContext :=
  ⟨fun _ _ => rfl, fun _ _ => rfl, fun _ _ => rfl, rfl, rfl⟩

/-- A generation result with a 10-slide carousel whose `claude_prompt` was
not rendered from it (as nothing in the code enforces). -/
def tenSlideResult : GenResult :=
  { headline := "topic", linkedin_post := "post", image_prompt := "img",
    carousel_script := List.replicate 10
      { slide_number := 1, emoji := "e", headline := "h",
        bullet_points := ["a", "b", "c"] },
    claude_prompt := "no slide blocks here" }

/-- C8 counterexample: the code accepts and stores a generation result with
a 10-slide carousel whose `claude_prompt` contains no slide blocks at all —
nothing derives or validates `claude_prompt` from `carousel_script`. -/
theorem claude_prompt_unvalidated_cex :
    tenSlideResult.carousel_script.length = 10 ∧
    ¬ claudePromptWellFormed tenSlideResult ∧
    generate_post (.ok tenSlideResult) = (some tenSlideResult, false) ∧
    (generation_button (.ok tenSlideResult) initialSession).1.generation_result =
      some tenSlideResult := by
  refine ⟨rfl, ?_, rfl, rfl⟩
  intro hwf
  exact absurd hwf.1 (by decide)

/-- C8 amended: the 10-block COVER/CTA shape of `claude_prompt` is only an
instruction to the language model — the fixed prompt template embedded in
`generate_post` demands slide 1 tagged COVER and slide 10 tagged CTA — and
the code itself neither derives nor validates `claude_prompt` from the
carousel data: every parsed result is stored as-is. -/
theorem claude_prompt_template_instructions :
    SubStr "SLIDE 1 — COVER:" claudePromptFormatInstructions ∧
    SubStr "SLIDE 10 — CTA:" claudePromptFormatInstructions ∧
    (∀ r : GenResult, generate_post (.ok r) = (some r, false)) := by
  refine ⟨⟨claudeTplHead, claudeTplMid ++ (claudeCtaTag ++ claudeTplTail), rfl⟩,
    ⟨claudeTplHead ++ (claudeCoverTag ++ claudeTplMid), claudeTplTail, ?_⟩,
    fun _ => rfl⟩
  show claudePromptFormatInstructions = _
  rw [claudePromptFormatInstructions]
  simp only [String.append_assoc]
  rfl

end App
